import Mathlib

/-!
A shallow embedding of `src/create-feature-issues.py`: a one-shot batch loader
that submits a fixed catalog of feature-request issue descriptors to the GitHub
REST API and reports per-item, per-batch and combined outcomes.

The embedding models the transport (`requests.post`) as a function from the
built request to either a final HTTP response or a transport-level exception,
and threads the script's observable effects (printed lines, performed requests,
process exit) explicitly.  Python exceptions are modelled with `Except`; the
distinction that `requests.exceptions.HTTPError` (raised by
`Response.raise_for_status`) is a different class from the transport exceptions
(`ConnectionError`, `Timeout`, `NameResolutionError`, ...), none of which is a
subclass of `HTTPError`, is kept, because the script's `except` clause catches
only `HTTPError`.
-/

namespace CreateFeatureIssues

/-- One record descriptor of the catalog: the `{"title": ..., "body": ...}`
dicts returned by `get_domain_feature_requests` and
`get_technical_feature_requests`. -/
structure FeatureRequest where
  title : String
  body : String
deriving Repr, DecidableEq

/-- `REPO_OWNER` from the source. -/
def REPO_OWNER : String := "nikola-golijanin"

/-- `REPO_NAME` from the source. -/
def REPO_NAME : String := "evently"

/-- `GITHUB_API_URL`, the f-string of the source. -/
def GITHUB_API_URL : String :=
  "https://api.github.com/repos/" ++ REPO_OWNER ++ "/" ++ REPO_NAME ++ "/issues"

/-- The JSON payload of one issue-creation call: the dict
`data = \x7b"title": title, "body": body, "labels": labels\x7d` of `create_issue`. -/
structure IssuePayload where
  title : String
  body : String
  labels : List String
deriving Repr, DecidableEq

/-- One outgoing HTTP request, as `requests.post(GITHUB_API_URL, json=data,
headers=headers)` performs it. -/
structure Request where
  method : String
  url : String
  payload : IssuePayload
  headers : List (String × String)
deriving Repr, DecidableEq

/-- What the transport returns for one `requests.post` call: either a final
HTTP response (status code, reason phrase, body text), or a transport-level
failure (connection refused, timeout, DNS failure), which `requests` raises as
an exception that is not an `HTTPError`. -/
inductive HttpResult where
  | response (status : Nat) (reason : String) (text : String)
  | transportError (message : String)
deriving Repr, DecidableEq

/-- `true` exactly when the transport returned an actual HTTP response. -/
def HttpResult.isResponse : HttpResult → Bool
  | .response .. => true
  | .transportError _ => false

/-- The Python exceptions relevant to the script: `httpError` is
`requests.exceptions.HTTPError` (raised only by `Response.raise_for_status`
here), `requestException` stands for the transport-level exceptions
(`ConnectionError`, `Timeout`, ...), which are siblings, not subclasses, of
`HTTPError` in the `requests` exception hierarchy. -/
inductive PyExc where
  | httpError (message : String)
  | requestException (message : String)
deriving Repr, DecidableEq

/-- Whether `Response.raise_for_status` raises.  Modelled from
`requests.models.Response.raise_for_status`, which the source calls: it raises
an `HTTPError` exactly for client-error statuses (400-499) and server-error
statuses (500-599); every other final status, 2xx or 3xx alike, returns
normally. -/
def raise_for_status_raises (status : Nat) : Bool :=
  decide (400 ≤ status ∧ status < 600)

/-- The message of the `HTTPError` raised by `raise_for_status` (what
`f"\x7be\x7d"` shows in the failure print).  Modelled from
`requests.models.Response.raise_for_status`. -/
def http_error_msg (status : Nat) (reason url : String) : String :=
  if status < 500 then
    toString status ++ " Client Error: " ++ reason ++ " for url: " ++ url
  else
    toString status ++ " Server Error: " ++ reason ++ " for url: " ++ url

/-- The request that `create_issue` builds and sends: the `headers` dict
(bearer authorization, the `application/vnd.github+json` accept header and the
API-version header) and the `data` dict, posted to `GITHUB_API_URL`. -/
def issueRequest (title body : String) (labels : List String) (token : String) :
    Request where
  method := "POST"
  url := GITHUB_API_URL
  payload := { title := title, body := body, labels := labels }
  headers := [("Authorization", "Bearer " ++ token),
              ("Accept", "application/vnd.github+json"),
              ("X-GitHub-Api-Version", "2022-11-28")]

deriving instance DecidableEq for Except

/-- The observable effects and result of one `create_issue` call: the request
it performed, the lines it printed, and `.ok b` when the function returned `b`
normally, `.error e` when the exception `e` escaped it. -/
structure CallResult where
  request : Request
  printed : List String
  result : Except PyExc Bool
deriving Repr, DecidableEq

/-- `create_issue(title, body, labels, token)` from the source.  The `try`
block posts the request and calls `raise_for_status`; the `except` clause
catches only `requests.exceptions.HTTPError`, so:
* a transport-level failure of `requests.post` escapes the function uncaught
  (`.error`);
* an error-status response makes `raise_for_status` raise `HTTPError`, which
  is caught: the two failure lines are printed and `False` is returned;
* otherwise the success line is printed and `True` is returned. -/
def create_issue (title body : String) (labels : List String) (token : String)
    (post : Request → HttpResult) : CallResult :=
  match post (issueRequest title body labels token) with
  | .transportError msg =>
      { request := issueRequest title body labels token
        printed := []
        result := .error (.requestException msg) }
  | .response status reason text =>
      if raise_for_status_raises status then
        { request := issueRequest title body labels token
          printed := ["❌ Failed to create " ++ title ++ ": " ++
                        http_error_msg status reason
                          (issueRequest title body labels token).url,
                      "   Response: " ++ text]
          result := .ok false }
      else
        { request := issueRequest title body labels token
          printed := ["✅ Created: " ++ title]
          result := .ok true }
/-- The list of domain feature requests, transcribed verbatim from the
Python function of the same name (each dict becomes a `FeatureRequest`). -/
def get_domain_feature_requests : List FeatureRequest := [
  { title := "FR-001: Notifications Module",
    body := "## Problem
The system performs important actions (order confirmed, tickets issued, event canceled, event rescheduled) but never tells the user. There is no email, SMS, or push notification system.

## Domain Concept
A new **Notifications** bounded context that listens to integration events from all modules and dispatches user-facing messages through configurable channels (email, in-app, push).

## What should trigger notifications

| Trigger Event | Notification | Recipient |
|---------------|-------------|-----------|
| UserRegisteredIntegrationEvent | Welcome email | New user |
| OrderCreatedIntegrationEvent | Order confirmation with ticket details | Customer |
| TicketIssuedIntegrationEvent | Ticket with QR/barcode code | Customer |
| EventRescheduledIntegrationEvent | \"Your event has been rescheduled\" | All ticket holders |
| EventCancellationCompletedIntegrationEvent | \"Event canceled, refund processed\" | All ticket holders |
| PaymentRefundedDomainEvent | Refund confirmation | Customer |
| AttendeeCheckedInDomainEvent | Check-in confirmation | Attendee |
| Event reminder (scheduled) | \"Event starts tomorrow\" | All ticket holders |

## Module Structure
- Consumes integration events from all other modules
- Manages notification preferences per user (opt-in/out per channel)
- Tracks delivery status (sent, delivered, failed)
- Supports templates with variable substitution

**Priority:** 1 (Core Missing Feature)  
**Affected modules:** None changed. New module added.

See: docs/07-Feature-Requests.md" },
  { title := "FR-002: Waitlist When Sold Out",
    body := "## Problem
When a ticket type sells out, `TicketTypeSoldOutIntegrationEvent` fires but **nothing consumes it**. Customers who arrive late have no way to express interest.

## Domain Concept
When a ticket type is sold out, customers can join a waitlist. When inventory becomes available (ticket archived, capacity increased, order canceled), the system automatically offers tickets to waitlisted customers in FIFO order.

## Entities
- **WaitlistEntry** -- (CustomerId, TicketTypeId, EventId, Quantity, RequestedAtUtc, Status, OfferedAtUtc, ExpiresAtUtc)
- Status: `Waiting -> Offered -> Converted | Expired | Canceled`

## Business Rules
1. Customer can only join waitlist when `AvailableQuantity == 0`
2. One waitlist entry per customer per ticket type
3. When inventory becomes available, offer to next customer in queue
4. Offered customer has a time window (e.g., 30 minutes) to complete purchase
5. If offer expires, move to next customer in queue
6. Customer can cancel their waitlist position at any time

## New Endpoints
- `POST /waitlist` -- Join waitlist for a ticket type
- `GET /waitlist` -- Get customer's waitlist entries
- `DELETE /waitlist/{id}` -- Cancel waitlist entry
- `POST /waitlist/{id}/accept` -- Accept a waitlist offer (creates order)

**Priority:** 1 (Core Missing Feature)  
**Where it lives:** Ticketing module

See: docs/07-Feature-Requests.md" },
  { title := "FR-003: User-Initiated Refund Requests",
    body := "## Problem
Refund capability exists internally (`RefundPaymentCommand`, `Payment.Refund()`) but is only triggered by event cancellation via the saga. There is no way for a customer to request a refund themselves.

## Domain Concept
Customers can request refunds for their orders, subject to configurable refund policies. The system evaluates the request against the policy and either auto-approves, partially approves, or requires organizer review.

## Entities
- **RefundPolicy** -- (EventId, FullRefundBeforeDays, PartialRefundBeforeDays, PartialRefundPercentage, NonRefundableAfterDays)
- **RefundRequest** -- (OrderId, CustomerId, Reason, RequestedAtUtc, Status, ReviewedAtUtc, RefundAmount)
- Status: `Pending -> Approved | PartiallyApproved | Denied | Processed`

## Business Rules
1. Default refund policy: full refund up to 7 days before event, 50% up to 48 hours, non-refundable after
2. Organizers can customize refund policy per event
3. Ticket types can be marked as non-refundable (e.g., discounted tickets)
4. Refund auto-approves if within full-refund window
5. Partial refunds calculated based on policy
6. Refund triggers existing `Payment.Refund()` domain logic
7. Refunded tickets are archived

## New Endpoints
- `POST /refunds` -- Request refund for an order
- `GET /refunds` -- Get customer's refund requests
- `GET /refunds/{id}` -- Get refund request details

**Priority:** 1 (Core Missing Feature)  
**Affected modules:** Ticketing (new entities + endpoints), Events (RefundPolicy on Event or TicketType)

See: docs/07-Feature-Requests.md" },
  { title := "FR-004: Discount & Promo Codes",
    body := "## Problem
There is no discount mechanism. Every ticket purchase is at full price. Organizers cannot run promotions, early-bird pricing, or partner discounts.

## Domain Concept
Organizers create promo codes tied to events. Customers apply codes at checkout for percentage or fixed-amount discounts. Codes have usage limits, expiration dates, and optional restrictions.

## Entities
- **PromoCode** -- (Code, EventId, DiscountType, DiscountValue, MaxUses, CurrentUses, ValidFrom, ValidUntil, MinQuantity, ApplicableTicketTypeIds, IsActive)
- DiscountType: `Percentage | FixedAmount`
- **OrderDiscount** -- (OrderId, PromoCodeId, DiscountAmount)

## Business Rules
1. Promo code is unique per event
2. Code must be within valid date range
3. Code must not exceed max usage count
4. Percentage discount applies to each line item proportionally
5. Fixed amount discount applies to order total
6. Discount cannot reduce price below zero
7. Multiple codes per order: organizer-configurable (default: one code per order)
8. Discount tracked on OrderItem level for accurate refund calculations

## New Endpoints
- `POST /promo-codes` -- Create promo code (organizer)
- `GET /promo-codes?eventId=` -- List promo codes for event (organizer)
- `PUT /promo-codes/{id}/deactivate` -- Deactivate code
- `POST /promo-codes/validate` -- Validate code before checkout (customer)
- `PUT /carts/apply-promo` -- Apply promo code to cart

**Priority:** 1 (Core Missing Feature)  
**Where it lives:** Ticketing module

See: docs/07-Feature-Requests.md" },
  { title := "FR-005: Event Organizer Ownership",
    body := "## Problem
Events have no owner. The `Event` entity has no `OrganizerId` or `CreatedBy` field. Any user with the `ModifyEvents` permission can edit or cancel any event. There is no concept of \"my events\" for organizers.

## Domain Concept
Events are owned by the user who creates them (the organizer). Only the organizer (or administrators) can modify, publish, or cancel their events. Organizers can view analytics for their events.

## Changes Needed
- `Event` entity gets `OrganizerId` (Guid) property
- `CreateEventCommand` captures the current user as organizer
- All event mutation endpoints check `event.OrganizerId == currentUserId || isAdmin`
- New query: \"Get my events\" filtered by organizer

## Business Rules
1. The user who creates an event becomes its organizer
2. Only the organizer or an admin can publish, reschedule, or cancel the event
3. Organizers can view orders and attendance stats for their events
4. Future: organizer can delegate management to other users

## New Endpoints
- `GET /events/mine` -- Get events created by the current user

**Priority:** 1 (Core Missing Feature)  
**Affected modules:** Events (Event entity change), Users (possible Organizer role or ownership-based policies)

See: docs/07-Feature-Requests.md" },
  { title := "FR-006: Cart Inventory Reservation",
    body := "## Problem
The cart is a Redis-based wish list with a 20-minute TTL, but it does **not reserve inventory**. Two customers can add the last ticket to their carts simultaneously, and one will fail at checkout.

## Domain Concept
When a customer adds tickets to their cart, the system temporarily holds (reserves) the inventory. Reserved tickets are unavailable to other customers. If the cart expires or is cleared, the reservation is released.

## New Entity
- **InventoryReservation** -- (CustomerId, TicketTypeId, Quantity, ReservedAtUtc, ExpiresAtUtc)

## Changes Needed
- `AddItemToCartCommand` decrements `AvailableQuantity` and records a reservation
- `RemoveItemFromCartCommand` / `ClearCartCommand` releases reservation (increments back)
- Cart expiration (Redis TTL) triggers reservation release
- `CreateOrderCommand` converts reservation into permanent purchase (no double-decrement)

## Business Rules
1. Reservation lasts 20 minutes (matches cart TTL)
2. Reservation auto-releases on expiry via background job
3. Order creation consumes reservation (no additional quantity check needed)
4. If reservation expired before checkout, order creation falls back to standard pessimistic lock flow

**Priority:** 2 (Important Enhancement)  
**Affected modules:** Ticketing (cart service, ticket type repository, new background job)

See: docs/07-Feature-Requests.md" },
  { title := "FR-007: Ticket Transfers",
    body := "## Problem
Tickets are permanently bound to the customer who purchased them. If you buy a ticket and can't attend, you can't give it to a friend.

## Domain Concept
A ticket holder can transfer a ticket to another registered user. The transfer invalidates the original ticket code and generates a new one for the recipient. Transfer history is maintained for audit purposes.

## Entities
- **TicketTransfer** -- (TicketId, FromCustomerId, ToCustomerId, InitiatedAtUtc, CompletedAtUtc, Status)
- Status: `Pending -> Accepted | Declined | Canceled`

## Business Rules
1. Only the ticket owner can initiate a transfer
2. Recipient must be a registered user
3. Ticket cannot be transferred if already used (checked in)
4. Ticket cannot be transferred if event is canceled
5. Transfer generates a new ticket code (old one invalidated)
6. Pending transfers can be canceled by the sender
7. Recipient must explicitly accept the transfer
8. Transfer updates the Attendance module's ticket record (new AttendeeId)

## New Endpoints
- `POST /tickets/{id}/transfer` -- Initiate transfer (sender)
- `POST /transfers/{id}/accept` -- Accept transfer (recipient)
- `POST /transfers/{id}/decline` -- Decline transfer (recipient)
- `GET /transfers` -- Get transfer history

**Priority:** 2 (Important Enhancement)  
**Affected modules:** Ticketing (Ticket entity, new TicketTransfer entity), Attendance (update ticket ownership)

See: docs/07-Feature-Requests.md" },
  { title := "FR-008: Event Reviews & Ratings",
    body := "## Problem
After an event ends, there is no feedback mechanism. Organizers don't know how the event was perceived. Future attendees can't evaluate events based on past reviews.

## Domain Concept
After an event ends, attendees who checked in can leave a review with a rating and optional text. Reviews are tied to the Attendance module since only verified attendees can review.

## Entities
- **Review** -- (EventId, AttendeeId, Rating (1-5), Comment, CreatedAtUtc, UpdatedAtUtc)

## Business Rules
1. Only attendees who checked in can leave a review (verified attendance)
2. One review per attendee per event
3. Reviews can only be submitted after the event ends
4. Reviews can be edited within 30 days of the event
5. Rating is required (1-5 stars), comment is optional
6. Average rating aggregated into EventStatistics (new field)

## New Endpoints
- `POST /events/{id}/reviews` -- Submit review
- `PUT /events/{id}/reviews` -- Update review
- `GET /events/{id}/reviews` -- Get reviews for event (paginated)

**Priority:** 2 (Important Enhancement)  
**Where it lives:** Attendance module

See: docs/07-Feature-Requests.md" },
  { title := "FR-009: Recurring Events & Event Series",
    body := "## Problem
Every event is a standalone instance. Organizers who run weekly meetups, monthly concerts, or annual conferences must create each occurrence manually.

## Domain Concept
An event can belong to a series. A series defines a recurrence pattern (weekly, biweekly, monthly) and template properties. Individual occurrences can be generated from the series and then customized.

## Entities
- **EventSeries** -- (Title, Description, Location, CategoryId, RecurrencePattern, StartsAtUtc, EndsAtUtc)
- RecurrencePattern: `{ Type: Weekly|Biweekly|Monthly, DayOfWeek?, DayOfMonth?, Count? }`
- Events get optional `SeriesId` (Guid?) to link to parent series

## Business Rules
1. Creating a series generates N future event drafts based on recurrence pattern
2. Each occurrence is a full Event entity that can be individually modified
3. Series-level changes can propagate to future unmodified occurrences
4. Canceling a series cancels all future unpublished occurrences
5. Individual occurrences can be detached from the series

## New Endpoints
- `POST /event-series` -- Create series with recurrence pattern
- `GET /event-series/{id}` -- Get series with all occurrences
- `PUT /event-series/{id}` -- Update series (propagate to future events)
- `DELETE /event-series/{id}` -- Cancel series

**Priority:** 2 (Important Enhancement)  
**Where it lives:** Events module

See: docs/07-Feature-Requests.md" },
  { title := "FR-010: Venue Management",
    body := "## Problem
Location is a free-text string field on the Event entity. No structured venue data, no reusability across events, no capacity tracking.

## Domain Concept
Venues are first-class entities with structured address data, capacity limits, and reusability across events. Events reference a venue instead of storing a raw location string.

## Entities
- **Venue** -- (Name, Address, City, Country, Capacity, Description, Coordinates?)

## Business Rules
1. Events reference a Venue by ID (optional -- free-text location still supported for backward compatibility)
2. Venue capacity serves as an upper bound for total ticket quantity across all ticket types
3. Venues are reusable across events
4. Publishing an event validates total ticket quantity does not exceed venue capacity

## New Endpoints
- `POST /venues` -- Create venue
- `GET /venues` -- List venues (with search)
- `GET /venues/{id}` -- Get venue details
- `PUT /venues/{id}` -- Update venue

**Priority:** 3 (Advanced Feature)  
**Where it lives:** Events module

See: docs/07-Feature-Requests.md" },
  { title := "FR-011: Seating & Sections",
    body := "## Problem
All tickets are general admission. No concept of seats, rows, sections, or zones. For concerts, theaters, and conferences with assigned seating, this is essential.

## Domain Concept
Venues have sections (e.g., \"Floor\", \"Balcony\", \"VIP Area\"). Sections have rows and seats. Ticket types can be linked to sections. When purchasing, customers select specific seats or get auto-assigned.

## Entities
- **Section** -- (VenueId, Name, Capacity)
- **Seat** -- (SectionId, Row, Number, Status)
- Seat Status: `Available | Reserved | Sold | Blocked`

## Business Rules
1. Ticket types optionally map to sections
2. Seat selection happens during cart add or checkout
3. Selected seats are reserved (ties into FR-006 Cart Reservation)
4. Seat map can be returned via API for frontend rendering

**Priority:** 3 (Advanced Feature)  
**Depends on:** FR-010 (Venue Management), FR-006 (Cart Reservation)

See: docs/07-Feature-Requests.md" },
  { title := "FR-012: Analytics & Reporting",
    body := "## Problem
Only basic attendance statistics exist (tickets sold, checked in, duplicates). No revenue reporting, sales trends, conversion rates, or organizer dashboards.

## Domain Concept
Aggregate reporting across events owned by an organizer. Revenue breakdowns, sales velocity, attendance rates, and trends over time.

## Reports
- Revenue per event (total sales, refunds, net revenue)
- Sales velocity (tickets sold per day leading up to event)
- Conversion rate (views -> cart -> purchase)
- Attendance rate (tickets sold vs checked in)
- Category performance (which categories sell best)
- Promo code effectiveness (usage, revenue impact)

**Implementation approach:** Read model projections (same CQRS pattern as EventStatistics). Background jobs aggregate data from existing domain events.

**Priority:** 3 (Advanced Feature)  
**Depends on:** FR-005 (Event Organizer -- to scope reports to \"my events\")

See: docs/07-Feature-Requests.md" },
  { title := "FR-013: Group Bookings",
    body := "## Problem
Each order is for one customer. There's no concept of group reservations where an organizer, company, or group leader books tickets for multiple people with a single transaction.

## Domain Concept
A group booking allows purchasing multiple tickets and assigning them to different attendees. The group leader manages the booking and can assign/reassign names to tickets.

## Entities
- **GroupBooking** -- (LeaderCustomerId, EventId, GroupName, Tickets[])
- Each ticket in the group gets an `AssignedTo` field (name/email)

## Business Rules
1. Group leader purchases N tickets in one order
2. Tickets initially unassigned (leader's name)
3. Leader can assign attendee details to each ticket before the event
4. Each assigned ticket generates a unique code for that attendee
5. Minimum group size configurable per event (e.g., 10+)
6. Optional group discount (ties into FR-004 Promo Codes)

## New Endpoints
- `POST /group-bookings` -- Create group booking
- `PUT /group-bookings/{id}/assign` -- Assign attendees to tickets
- `GET /group-bookings/{id}` -- Get group booking details

**Priority:** 3 (Advanced Feature)  
**Where it lives:** Ticketing module

See: docs/07-Feature-Requests.md" }
]

/-- The list of technical feature requests, transcribed verbatim from the
Python function of the same name (each dict becomes a `FeatureRequest`). -/
def get_technical_feature_requests : List FeatureRequest := [
  { title := "TFR-001: Replace Keycloak with ASP.NET Identity",
    body := "## Problem
Keycloak adds significant operational complexity. The entire integration boils down to user creation and JWT issuance, while authorization is already fully local (PostgreSQL).

## Proposal
Replace Keycloak with ASP.NET Core Identity + local JWT issuance.

## Why This is a Clean Swap
- `IIdentityProviderService` is already a clean abstraction
- `CustomClaimsTransformation` stays exactly the same
- Permission model (roles, permissions, role_permissions tables) stays exactly the same
- Only the Users module Infrastructure layer changes

## Benefits
- Removes Docker container dependency (800MB+ image)
- Removes Testcontainer in integration tests (~15-20s faster)
- Simplifies configuration
- Removes external service health check dependency

## What Changes

| Component | Current (Keycloak) | New (ASP.NET Identity) |
|-----------|-------------------|----------------------|
| User storage | Keycloak DB + local users table | Identity tables in users schema only |
| Password hashing | Keycloak | ASP.NET Identity (PBKDF2) |
| User registration | Keycloak Admin API call | `UserManager<T>.CreateAsync()` |
| Token issuance | Keycloak OIDC endpoint | Local JWT generation |
| Token validation | Keycloak OIDC metadata | Local key validation |
| Docker services | PostgreSQL + Redis + Keycloak | PostgreSQL + Redis |

## New Endpoints Needed
- `POST /users/login` -- Authenticate with email/password, return JWT + refresh token
- `POST /users/refresh` -- Refresh an expired JWT
- `POST /users/change-password`

**Priority:** 1 (High-Impact Improvement)  
**Risk:** Low. Clean abstraction boundary.

See: docs/08-Technical-Feature-Requests.md" },
  { title := "TFR-002: Stabilize MassTransit Version",
    body := "## Problem
The project uses `MassTransit 9.0.1-develop.45` -- a **pre-release development build**. Pre-release packages risk breaking changes, missing documentation, and bugs.

Additionally, `Newtonsoft.Json 13.0.5-beta1` is also a beta version.

## Proposal
1. Upgrade to the latest stable MassTransit 9.x release
2. Upgrade Newtonsoft.Json to the latest stable
3. Verify the PostgreSQL transport and saga state machine still work correctly
4. Run all integration tests after upgrade

## What to Check After Upgrade
- `CancelEventSaga` state persistence still works
- `IntegrationEventConsumer<T>` still receives messages
- Outbox/inbox processing still functions
- MassTransit auto-migration still runs

**Priority:** 1 (High-Impact Improvement)  
**Risk:** Low-medium. Test thoroughly.

See: docs/08-Technical-Feature-Requests.md" },
  { title := "TFR-003: Add Resilience with Polly",
    body := "## Problem
No resilience policies exist anywhere in the system. Database calls, Redis operations, HTTP calls, and MassTransit publishing all lack retry logic, circuit breakers, and timeout policies.

## Current Issues
- Redis connection failure is caught with a bare `catch` block -- no logging, no metrics
- Database transient errors cause immediate hard failures
- No circuit breaker to prevent cascading failures
- No timeout policies beyond default HTTP/DB timeouts

## Proposal
Add `Microsoft.Extensions.Http.Resilience` and `Microsoft.Extensions.Resilience` (built-in Polly v8 integration).

## Where to Add Resilience

| Component | Policy | Rationale |
|-----------|--------|-----------|
| Database calls | Retry (3x, exponential backoff) | Transient connection errors |
| Redis operations | Retry (2x) + Circuit breaker | Redis restart/network blip |
| MassTransit publishing | Retry (3x) | Message bus temporary unavailability |
| Keycloak/Identity HTTP calls | Retry + Timeout + Circuit breaker | External service dependency |
| Payment service | Retry + Timeout | External gateway |

**Priority:** 1 (High-Impact Improvement)

See: docs/08-Technical-Feature-Requests.md" },
  { title := "TFR-004: Expand Integration Test Coverage",
    body := "## Problem
Only 2 integration test examples exist (`RegisterUser`, `AddItemToCart`). For a project with 31 endpoints and complex cross-module flows, this is minimal coverage.

## Proposal
Build out integration tests for critical paths.

## Priority Test Scenarios
1. Full event lifecycle: Create -> Add ticket types -> Publish -> Verify cross-module propagation
2. Full purchase flow: Register user -> Add to cart -> Create order -> Verify tickets generated
3. Event cancellation saga: Cancel event -> Verify payments refunded + tickets archived + saga completes
4. Check-in flow: Issue ticket -> Check in -> Verify statistics updated
5. Duplicate/invalid check-in: Verify correct error responses and statistics tracking
6. Concurrent order creation: Multiple users buying last tickets -> verify no overselling
7. Cart expiration: Add items -> Wait for TTL -> Verify cart empty

## Infrastructure Improvements
- Add a `BaseIntegrationTest` with common helpers
- Add test data builders using Bogus/Faker for all entities
- Add assertion helpers for cross-module event propagation
- Consider adding `Respawner` for fast database cleanup between tests

**Priority:** 1 (High-Impact Improvement)

See: docs/08-Technical-Feature-Requests.md" },
  { title := "TFR-005: Add Rate Limiting",
    body := "## Problem
No rate limiting exists. Any client can flood the API with unlimited requests. Critical for:
- Login endpoint (brute force protection)
- Order creation (prevent abuse)
- Registration (prevent spam accounts)

## Proposal
Add ASP.NET Core's built-in rate limiting middleware (`Microsoft.AspNetCore.RateLimiting`).

## Rate Limiting Policies

| Policy | Applies to | Limit | Window |
|--------|-----------|-------|--------|
| `fixed-global` | All endpoints | 100 req | per minute per IP |
| `auth-strict` | `/users/login`, `/users/register` | 10 req | per minute per IP |
| `order-limit` | `POST /orders` | 5 req | per minute per user |
| `sliding-general` | All authenticated endpoints | 60 req | per minute per user |

**Priority:** 2 (API & Infrastructure Hardening)

See: docs/08-Technical-Feature-Requests.md" },
  { title := "TFR-006: Add API Versioning",
    body := "## Problem
API is hardcoded to \"v1\" in Swagger with no versioning infrastructure. If we need to make breaking changes to endpoints, there's no mechanism to maintain backward compatibility.

## Proposal
Add `Asp.Versioning.Http` and `Asp.Versioning.Mvc.ApiExplorer` for URL-based API versioning.

## Approach
URL segment versioning (`/api/v1/events`, `/api/v2/events`).

## Implementation
1. Add versioning packages
2. Configure default version (1.0)
3. Add version groups to Swagger
4. Prefix all routes with `/api/v1/`
5. When v2 is needed, add versioned endpoint groups

**Priority:** 2 (API & Infrastructure Hardening)

See: docs/08-Technical-Feature-Requests.md" },
  { title := "TFR-007: Improve Health Checks",
    body := "## Problem
Current health checks cover PostgreSQL, Redis, and Keycloak (URI check). Missing:
- MassTransit connectivity
- No liveness/readiness distinction (important for Kubernetes)
- No startup probe
- No detailed health check response

## Proposal

### Add Health Check Endpoints
- `GET /health/live` -- Liveness: app is running (always 200 unless crashed)
- `GET /health/ready` -- Readiness: app can serve traffic (all dependencies up)
- `GET /health/startup` -- Startup: app has finished initialization

### Add Missing Checks
- MassTransit bus health
- Outbox/inbox backlog check (alert if unprocessed messages > threshold)
- Quartz scheduler health

**Priority:** 2 (API & Infrastructure Hardening)  
**Note:** After TFR-001, remove Keycloak health check

See: docs/08-Technical-Feature-Requests.md" },
  { title := "TFR-008: Add Response Compression & CORS",
    body := "## Problem
- No response compression -- JSON responses sent uncompressed
- No CORS configuration visible -- browsers may be blocked from calling the API

## Proposal

### Compression
Enable Brotli and Gzip compression for HTTPS responses.

### CORS
Configure CORS policy to allow frontend requests:
- Allow specific origins (e.g., `http://localhost:3000`)
- Allow any header and method
- Allow credentials

**Priority:** 2 (API & Infrastructure Hardening)

See: docs/08-Technical-Feature-Requests.md" },
  { title := "TFR-009: Persist Quartz Scheduler State",
    body := "## Problem
Quartz scheduler uses in-memory job storage with a random GUID instance ID. If the application restarts:
- All scheduled jobs are lost
- Outbox/inbox processing timers reset
- No visibility into job execution history
- No cluster support (multiple instances would duplicate jobs)

## Proposal
Switch Quartz to persistent `AdoJobStore` backed by PostgreSQL.

## Benefits
- Jobs survive application restarts
- Job execution history available for debugging
- Cluster mode support (only one instance processes each job)
- Dashboard integration possible (Quartz.NET monitoring)

## Implementation
1. Add `Quartz.Serialization.Json` package
2. Configure `AdoJobStore` with PostgreSQL provider
3. Create Quartz schema tables (built-in migration script)
4. Use clustered mode with `InstanceId = \"AUTO\"`

**Priority:** 3 (Observability & Performance)

See: docs/08-Technical-Feature-Requests.md" },
  { title := "TFR-010: Multi-Level Caching (L1 + L2)",
    body := "## Problem
Current caching is single-level (Redis or memory fallback). For frequently read data (event details, categories, permissions), every cache miss goes to Redis over the network.

## Proposal
Add in-memory L1 cache in front of Redis L2 cache.

## Pattern
```
Request -> L1 (IMemoryCache, in-process, ~1ms)
       -> L2 (Redis, network, ~5ms)
       -> Database (~20ms)
```

## What to Cache at L1
- User permissions (queried on every request via `CustomClaimsTransformation`)
- Category list (rarely changes)
- Event details for published events (immutable after publish)

## Cache Invalidation
Use Redis pub/sub to invalidate L1 across multiple instances when data changes.

## Implementation
Create `HybridCacheService` wrapping `IMemoryCache` + `IDistributedCache` with configurable L1 TTL.

**Priority:** 3 (Observability & Performance)

See: docs/08-Technical-Feature-Requests.md" },
  { title := "TFR-011: Structured Configuration Validation",
    body := "## Problem
Configuration is loaded from multiple JSON files per module (`modules.users.json`, `modules.events.json`, etc.) with no validation. Missing or malformed config values fail at runtime, not startup.

## Proposal
Add `IValidateOptions<T>` implementations for all configuration sections.

## Validate at Startup
- Database connection string is not empty and is valid
- Redis connection string format
- JWT signing key present and minimum length
- Quartz cron expressions valid
- Module-specific settings complete

## Implementation
Use `OptionsBuilder<T>.ValidateOnStart()` pattern so the app fails fast with a clear error message.

**Priority:** 3 (Observability & Performance)

See: docs/08-Technical-Feature-Requests.md" },
  { title := "TFR-012: Enhance OpenAPI Documentation",
    body := "## Problem
Swagger is minimal -- single version, no security definitions, no request/response examples, no error schema documentation. Endpoints show up but aren't documented enough for a consumer to use confidently.

## Proposal

1. **Add security scheme** -- Document Bearer token authentication in Swagger UI
2. **Add operation summaries** -- Brief descriptions on each endpoint
3. **Add response examples** -- Sample request/response bodies
4. **Add error responses** -- Document 400, 401, 403, 404, 409 responses per endpoint
5. **Group by module** -- Use tags matching module names
6. **Add Scalar or ReDoc** -- Modern alternative to Swagger UI (better DX)

## Implementation
Use `WithOpenApi()` extension on endpoints or XML doc comments with `Swashbuckle.AspNetCore.Annotations`.

**Priority:** 3 (Observability & Performance)

See: docs/08-Technical-Feature-Requests.md" }
]
/-- The state one batch loop of `main` builds up: the lines printed by the
calls, the requests performed, the batch's success counter
(`domain_success` / `technical_success`), and the exception that aborted the
loop, when one did. -/
structure BatchRun where
  out : List String
  reqs : List Request
  success : Nat
  crash : Option PyExc
deriving Repr, DecidableEq

/-- One `for request in requests:` loop of `main`: each item is submitted with
`create_issue(request["title"], request["body"], ["enhancement"], token)`, the
success counter is incremented when it returns `True`, and an exception
escaping `create_issue` aborts the loop (and, unhandled, the run). -/
def runItems (token : String) (post : Request → HttpResult) :
    List FeatureRequest → BatchRun
  | [] => { out := [], reqs := [], success := 0, crash := none }
  | fr :: rest =>
    let c := create_issue fr.title fr.body ["enhancement"] token post
    match c.result with
    | .error e =>
        { out := c.printed, reqs := [c.request], success := 0, crash := some e }
    | .ok ok =>
        let r := runItems token post rest
        { out := c.printed ++ r.out
          reqs := c.request :: r.reqs
          success := (if ok then 1 else 0) + r.success
          crash := r.crash }

/-- Python's truthiness test `if not token:` applied to
`os.environ.get("GITHUB_TOKEN")`: it holds when the variable is absent
(`None`) and also when it is set to the empty string. -/
def tokenMissing : Option String → Bool
  | none => true
  | some t => t == ""

/-- How the process ends: `exited c` for a normal return or `sys.exit(c)`,
`crashed e` for an exception escaping `main` uncaught (CPython then prints a
traceback and terminates with status 1). -/
inductive ExitStatus where
  | exited (code : Nat)
  | crashed (e : PyExc)
deriving Repr, DecidableEq

/-- The observable trace of one run of the script: every line printed, every
HTTP request performed, in order, and how the process ended. -/
structure RunTrace where
  output : List String
  requests : List Request
  exit : ExitStatus
deriving Repr, DecidableEq

/-- `"=" * 70`, the separator line of the final summary. -/
def sepLine : String := String.mk (List.replicate 70 '=')

/-- The trace of the `if not token:` branch of `main`: the two diagnostic
lines, no network call, `sys.exit(1)`. -/
def missingTokenTrace : RunTrace where
  output := ["❌ Error: GITHUB_TOKEN environment variable not set",
             "   Please set it with: export GITHUB_TOKEN='your_token_here'"]
  requests := []
  exit := .exited 1

/-- The body of `main` past the credential check: header prints, the domain
batch loop, the technical batch loop, and the final summary block.  An
exception escaping `create_issue` is not handled anywhere, so it aborts the
run at that point: the remaining items (and batches) are not attempted and no
summary is printed. -/
def mainBody (token : String) (post : Request → HttpResult) : RunTrace :=
  let head := ["Creating GitHub issues for " ++ REPO_OWNER ++ "/" ++ REPO_NAME ++ "...",
               "",
               "📋 Creating domain feature requests (FR-001 to FR-013)..."]
  let domain_requests := get_domain_feature_requests
  let d := runItems token post domain_requests
  match d.crash with
  | some e => { output := head ++ d.out, requests := d.reqs, exit := .crashed e }
  | none =>
    let head2 := ["", "🔧 Creating technical feature requests (TFR-001 to TFR-012)..."]
    let technical_requests := get_technical_feature_requests
    let t := runItems token post technical_requests
    match t.crash with
    | some e =>
        { output := head ++ d.out ++ head2 ++ t.out
          requests := d.reqs ++ t.reqs
          exit := .crashed e }
    | none =>
        { output := head ++ d.out ++ head2 ++ t.out ++
            ["", sepLine,
             "✅ Successfully created " ++ toString (d.success + t.success) ++
               " out of " ++
               toString (domain_requests.length + technical_requests.length) ++
               " issues",
             "   - Domain feature requests: " ++ toString d.success ++ "/" ++
               toString domain_requests.length,
             "   - Technical feature requests: " ++ toString t.success ++ "/" ++
               toString technical_requests.length,
             sepLine]
          requests := d.reqs ++ t.reqs
          exit := .exited 0 }

/-- `main()` from the source, as a function of the two inputs the script
reads from its environment: the value of `os.environ.get("GITHUB_TOKEN")` and
the behaviour `post` of the transport for each request it performs. -/
def main (token? : Option String) (post : Request → HttpResult) : RunTrace :=
  if tokenMissing token? then missingTokenTrace
  else mainBody (token?.getD "") post

/-- The request the driver performs for one catalog entry: `main` always passes
the labels `["enhancement"]`. -/
def reqOf (token : String) (fr : FeatureRequest) : Request :=
  issueRequest fr.title fr.body ["enhancement"] token

/-- A transport that never fails at transport level: every call yields an
actual HTTP response (of whatever status). -/
def ResponsesOnly (post : Request → HttpResult) : Prop :=
  ∀ r : Request, (post r).isResponse = true

/-- Whether the transport answers `r` with an HTTP error response, i.e. with a
status `raise_for_status` raises for (a failed submission). -/
def failsOn (post : Request → HttpResult) (r : Request) : Bool :=
  match post r with
  | .response status _ _ => raise_for_status_raises status
  | .transportError _ => false

/-- The number of requests of `rs` the transport answers with an HTTP error
response. -/
def failCount (post : Request → HttpResult) (rs : List Request) : Nat :=
  (rs.filter (failsOn post)).length

/-- A transport in which every call succeeds with `201 Created`. -/
def postAllOk : Request → HttpResult :=
  fun _ => .response 201 "Created" ""

/-- A transport in which every call is rejected with `422 Unprocessable
Entity`. -/
def postAllUnprocessable : Request → HttpResult :=
  fun _ => .response 422 "Unprocessable Entity" "Validation Failed"

/-- A transport in which every call times out at transport level. -/
def postTimeout : Request → HttpResult :=
  fun _ => .transportError "ConnectTimeout"

/-- A transport in which the very first catalog item hits a DNS failure while
every other request would succeed. -/
def postDnsOnFirst : Request → HttpResult :=
  fun r =>
    if r.payload.title = "FR-001: Notifications Module" then
      .transportError "NameResolutionError"
    else .response 201 "Created" ""

/-- A transport answering every call with `304 Not Modified`: a response whose
status is neither 2xx nor an error status. -/
def postNotModified : Request → HttpResult :=
  fun _ => .response 304 "Not Modified" ""

end CreateFeatureIssues

namespace CreateFeatureIssues

/-- Splitting a list by a Boolean predicate: the items failing it and the items
satisfying it together count the whole list. -/
lemma length_filter_not_add_length_filter {α : Type} (p : α → Bool) (l : List α) :
    (l.filter (fun a => !p a)).length + (l.filter p).length = l.length := by
  induction l with
  | nil => rfl
  | cons a l ih =>
    by_cases h : p a <;> simp [List.filter, h] <;> omega

/-- `create_issue` always performs exactly the request `issueRequest` builds. -/
lemma create_issue_request_eq (title body : String) (labels : List String)
    (token : String) (post : Request → HttpResult) :
    (create_issue title body labels token post).request =
      issueRequest title body labels token := by
  unfold create_issue
  cases post (issueRequest title body labels token) with
  | response s rsn txt =>
    dsimp only
    split <;> rfl
  | transportError m => rfl

/-- Evaluation of `create_issue` when the transport returns a response. -/
lemma create_issue_of_response (title body : String) (labels : List String)
    (token : String) (post : Request → HttpResult) (s : Nat) (rsn txt : String)
    (h : post (issueRequest title body labels token) = .response s rsn txt) :
    create_issue title body labels token post =
      { request := issueRequest title body labels token
        printed :=
          if raise_for_status_raises s then
            ["❌ Failed to create " ++ title ++ ": " ++
               http_error_msg s rsn GITHUB_API_URL,
             "   Response: " ++ txt]
          else ["✅ Created: " ++ title]
        result := .ok (!raise_for_status_raises s) } := by
  unfold create_issue
  rw [h]
  dsimp only
  split <;> simp_all [issueRequest]

/-- Evaluation of `create_issue` when the transport fails: the exception is not
an `HTTPError`, so it escapes the function. -/
lemma create_issue_of_transport (title body : String) (labels : List String)
    (token : String) (post : Request → HttpResult) (m : String)
    (h : post (issueRequest title body labels token) = .transportError m) :
    create_issue title body labels token post =
      { request := issueRequest title body labels token
        printed := []
        result := .error (.requestException m) } := by
  unfold create_issue
  rw [h]

/-- With a transport that always returns responses, `create_issue` returns
normally, with `True` exactly when the status is not an error status. -/
lemma create_issue_result_eq (title body : String) (labels : List String)
    (token : String) (post : Request → HttpResult) (h : ResponsesOnly post) :
    (create_issue title body labels token post).result =
      .ok (!failsOn post (issueRequest title body labels token)) := by
  have hr := h (issueRequest title body labels token)
  cases hp : post (issueRequest title body labels token) with
  | response s rsn txt =>
    rw [create_issue_of_response title body labels token post s rsn txt hp]
    simp [failsOn, hp]
  | transportError m =>
    rw [hp] at hr
    simp [HttpResult.isResponse] at hr

end CreateFeatureIssues

namespace CreateFeatureIssues

/-- Master description of one batch loop under a transport that always returns
responses: no exception escapes, the items' requests are performed one each in
catalog order, the printed lines are the items' reports in order, and the
success counter counts the items whose response was not an error status. -/
lemma runItems_eq_of_responses (token : String) (post : Request → HttpResult)
    (h : ResponsesOnly post) :
    ∀ frs : List FeatureRequest,
      runItems token post frs =
        { out := frs.flatMap
            (fun fr => (create_issue fr.title fr.body ["enhancement"] token post).printed)
          reqs := frs.map (reqOf token)
          success := (frs.filter (fun fr => !failsOn post (reqOf token fr))).length
          crash := none } := by
  intro frs
  induction frs with
  | nil => rfl
  | cons fr rest ih =>
    simp only [runItems]
    rw [create_issue_result_eq fr.title fr.body ["enhancement"] token post h]
    dsimp only
    rw [ih]
    simp only [reqOf] at *
    cases hb : failsOn post (issueRequest fr.title fr.body ["enhancement"] token) <;>
      simp [List.filter, hb, create_issue_request_eq, Nat.add_comm, reqOf]

/-- When the credential check passes, `main` is its body applied to the token
string. -/
lemma main_eq_mainBody (token? : Option String) (post : Request → HttpResult)
    (h : tokenMissing token? = false) :
    main token? post = mainBody (token?.getD "") post := by
  simp [main, h]

/-- Master description of `mainBody` under a transport that always returns
responses: both batch loops run to completion, all requests are performed, the
summary block is printed and the process exits normally. -/
lemma mainBody_eq_of_responses (token : String) (post : Request → HttpResult)
    (h : ResponsesOnly post) :
    mainBody token post =
      { output :=
          ["Creating GitHub issues for " ++ REPO_OWNER ++ "/" ++ REPO_NAME ++ "...",
           "",
           "📋 Creating domain feature requests (FR-001 to FR-013)..."] ++
          (runItems token post get_domain_feature_requests).out ++
          ["", "🔧 Creating technical feature requests (TFR-001 to TFR-012)..."] ++
          (runItems token post get_technical_feature_requests).out ++
          ["", sepLine,
           "✅ Successfully created " ++
             toString ((runItems token post get_domain_feature_requests).success +
               (runItems token post get_technical_feature_requests).success) ++
             " out of " ++
             toString (get_domain_feature_requests.length +
               get_technical_feature_requests.length) ++ " issues",
           "   - Domain feature requests: " ++
             toString (runItems token post get_domain_feature_requests).success ++
             "/" ++ toString get_domain_feature_requests.length,
           "   - Technical feature requests: " ++
             toString (runItems token post get_technical_feature_requests).success ++
             "/" ++ toString get_technical_feature_requests.length,
           sepLine]
        requests := (runItems token post get_domain_feature_requests).reqs ++
          (runItems token post get_technical_feature_requests).reqs
        exit := .exited 0 } := by
  have hd := runItems_eq_of_responses token post h get_domain_feature_requests
  have ht := runItems_eq_of_responses token post h get_technical_feature_requests
  simp only [mainBody]
  rw [hd, ht]

/-- One batch loop whose first item hits a transport-level failure: the
exception escapes after that single request, before any later item. -/
lemma runItems_cons_transport (token : String) (post : Request → HttpResult)
    (fr : FeatureRequest) (rest : List FeatureRequest) (m : String)
    (h : post (reqOf token fr) = .transportError m) :
    runItems token post (fr :: rest) =
      { out := [], reqs := [reqOf token fr], success := 0,
        crash := some (.requestException m) } := by
  simp only [reqOf] at h ⊢
  simp only [runItems]
  rw [create_issue_of_transport fr.title fr.body ["enhancement"] token post m h]

/-- A transport failure on the very first catalog item aborts the whole run:
one request is performed, the exception escapes `main`, and nothing past the
header is printed. -/
lemma mainBody_transport_all (token m : String) :
    (mainBody token (fun _ => .transportError m)).exit =
        .crashed (.requestException m) ∧
    (mainBody token (fun _ => .transportError m)).requests.length = 1 := by
  obtain ⟨fr, rest, hcat⟩ : ∃ fr rest, get_domain_feature_requests = fr :: rest :=
    ⟨_, _, rfl⟩
  simp only [mainBody]
  rw [hcat, runItems_cons_transport token _ fr rest m rfl]
  exact ⟨rfl, rfl⟩

/-- C4: if the credential environment variable is absent, the process prints
the diagnostic and exits with status 1 before attempting any submission: the
trace holds no request at all, so no network call occurs and zero submissions
are attempted across all batches. -/
theorem missing_credential_aborts_before_any_submission
    (post : Request → HttpResult) :
    main none post = missingTokenTrace ∧
    missingTokenTrace.requests = [] ∧
    missingTokenTrace.exit = .exited 1 ∧
    missingTokenTrace.output =
      ["❌ Error: GITHUB_TOKEN environment variable not set",
       "   Please set it with: export GITHUB_TOKEN='your_token_here'"] :=
  ⟨rfl, rfl, rfl, rfl⟩

/-- C10: a credential set to the empty string is treated exactly like an
absent one: whatever the transport would do, the run is the same trace as with
the variable unset — the diagnostic is printed, the exit status is 1, and no
submission is attempted. -/
theorem empty_token_treated_as_missing (post : Request → HttpResult) :
    main (some "") post = main none post ∧
    main (some "") post = missingTokenTrace ∧
    (main (some "") post).exit = .exited 1 ∧
    (main (some "") post).requests = [] :=
  ⟨rfl, rfl, rfl, rfl⟩

/-- C8: every submission performs a POST to the issues endpoint whose JSON
payload is exactly the descriptor's title, body and labels, and whose headers
are the bearer authorization derived from the token, the
`application/vnd.github+json` accept header and the API-version header. -/
theorem request_is_post_with_exact_payload_and_headers (title body : String)
    (labels : List String) (token : String) (post : Request → HttpResult) :
    (create_issue title body labels token post).request =
      { method := "POST"
        url := GITHUB_API_URL
        payload := { title := title, body := body, labels := labels }
        headers := [("Authorization", "Bearer " ++ token),
                    ("Accept", "application/vnd.github+json"),
                    ("X-GitHub-Api-Version", "2022-11-28")] } :=
  create_issue_request_eq title body labels token post

/-- C2 counterexample: a `304 Not Modified` response is not a 2xx status, yet
`create_issue` reports success (`True`), because `raise_for_status` raises
only for statuses in 400..599.  So "success iff 2xx / failure for every
non-2xx" is false on the code. -/
theorem status_304_reported_as_success :
    (create_issue "Example" "body" ["enhancement"] "token123" postNotModified).result =
        .ok true ∧
    ¬ (200 ≤ 304 ∧ 304 < 300) :=
  ⟨rfl, by decide⟩

/-- C2 as amended: when the transport returns a response of status `s`, the
call returns success exactly when `s` is outside the error range 400..599
(so 1xx, 2xx and 3xx all count as success), and failure exactly when
`400 ≤ s < 600`. -/
theorem submission_success_iff_status_not_error (title body : String)
    (labels : List String) (token : String) (post : Request → HttpResult)
    (s : Nat) (rsn txt : String)
    (h : post (issueRequest title body labels token) = .response s rsn txt) :
    ((create_issue title body labels token post).result = .ok true ↔
        (s < 400 ∨ 600 ≤ s)) ∧
    ((create_issue title body labels token post).result = .ok false ↔
        (400 ≤ s ∧ s < 600)) := by
  rw [create_issue_of_response title body labels token post s rsn txt h]
  dsimp only
  constructor <;> simp [raise_for_status_raises]

/-- Witness for the amended C2 at a concrete input: a 422 response is reported
as a failed submission. -/
theorem submission_success_iff_status_not_error_witness :
    (create_issue "Example" "body" ["enhancement"] "token123"
        postAllUnprocessable).result = .ok false :=
  (submission_success_iff_status_not_error "Example" "body" ["enhancement"]
      "token123" postAllUnprocessable 422 "Unprocessable Entity"
      "Validation Failed" rfl).2.mpr (by decide)

/-- C3 counterexample: the exit code is not 1 "exactly when the variable is
missing" — with the variable present but empty the process still exits 1; and
with the variable present and a transport failure the process does not exit 0
(the uncaught exception aborts it), although no more than individual
submissions failed. -/
theorem exit_code_claim_counterexample :
    ((some "" : Option String) ≠ none ∧
      (main (some "") postAllOk).exit = .exited 1) ∧
    ((main (some "tok") postTimeout).exit =
        .crashed (.requestException "ConnectTimeout") ∧
      (main (some "tok") postTimeout).exit ≠ .exited 0) := by
  refine ⟨⟨by simp, rfl⟩, rfl, by decide⟩

/-- C3 as amended: provided every attempted call returns an HTTP response (no
transport-level exception, which would abort the process abnormally), the
process exits with code 1 exactly when the credential is missing or empty, and
with code 0 otherwise — however many individual submissions failed. -/
theorem exit_code_one_iff_token_missing (token? : Option String)
    (post : Request → HttpResult) (h : ResponsesOnly post) :
    (main token? post).exit = .exited (if tokenMissing token? then 1 else 0) := by
  by_cases ht : tokenMissing token?
  · simp [main, ht, missingTokenTrace]
  · have h1 : tokenMissing token? = false := by simpa using ht
    rw [main_eq_mainBody token? post h1,
        mainBody_eq_of_responses (token?.getD "") post h]
    simp [h1]

/-- Witness for the amended C3 at a concrete input: a valid token and a
transport in which every single submission is rejected with 422 still exit
with code 0. -/
theorem exit_code_one_iff_token_missing_witness :
    (main (some "token123") postAllUnprocessable).exit = .exited 0 :=
  (exit_code_one_iff_token_missing (some "token123") postAllUnprocessable
      (fun _ => rfl)).trans (by decide)

/-- C1 counterexample: a transport-level failure (here a connect timeout) is
not absorbed as a per-item failure: the exception escapes `create_issue` and
`main`, the run aborts after the very first of the 25 catalog items, and no
later item of either batch is attempted. -/
theorem transport_failure_not_absorbed :
    (main (some "secret") postTimeout).exit =
        .crashed (.requestException "ConnectTimeout") ∧
    (main (some "secret") postTimeout).requests.length = 1 ∧
    get_domain_feature_requests.length + get_technical_feature_requests.length
        = 25 := by
  exact ⟨rfl, rfl, by decide⟩

/-- C1 as amended: an HTTP error response (status 400..599) is a per-item
failure that is absorbed — with a usable token and a transport that always
returns responses, the run attempts all 25 items of both batches and exits 0,
whatever the statuses were; but a transport-level failure is not caught: the
exception propagates, the run crashes, and only the one request before it was
performed. -/
theorem http_failures_absorbed_transport_failures_fatal
    (token? : Option String) (post : Request → HttpResult) (m : String)
    (h1 : tokenMissing token? = false) (h2 : ResponsesOnly post) :
    ((main token? post).exit = .exited 0 ∧
      (main token? post).requests.length =
        get_domain_feature_requests.length +
          get_technical_feature_requests.length) ∧
    ((main token? (fun _ => .transportError m)).exit =
        .crashed (.requestException m) ∧
      (main token? (fun _ => .transportError m)).requests.length = 1) := by
  constructor
  · rw [main_eq_mainBody token? post h1,
        mainBody_eq_of_responses (token?.getD "") post h2]
    refine ⟨rfl, ?_⟩
    rw [runItems_eq_of_responses (token?.getD "") post h2 get_domain_feature_requests,
        runItems_eq_of_responses (token?.getD "") post h2 get_technical_feature_requests]
    simp
  · rw [main_eq_mainBody token? _ h1]
    exact ⟨(mainBody_transport_all (token?.getD "") m).1,
           (mainBody_transport_all (token?.getD "") m).2⟩

/-- Witness for the amended C1 at a concrete input: with every submission
rejected by a 422 response, all 25 items are still attempted and the process
exits 0; with a timing-out transport the run crashes after one request. -/
theorem http_failures_absorbed_transport_failures_fatal_witness :
    ((main (some "secret") postAllUnprocessable).exit = .exited 0 ∧
      (main (some "secret") postAllUnprocessable).requests.length =
        get_domain_feature_requests.length +
          get_technical_feature_requests.length) ∧
    ((main (some "secret") (fun _ => .transportError "ConnectTimeout")).exit =
        .crashed (.requestException "ConnectTimeout") ∧
      (main (some "secret")
          (fun _ => .transportError "ConnectTimeout")).requests.length = 1) :=
  http_failures_absorbed_transport_failures_fatal (some "secret")
    postAllUnprocessable "ConnectTimeout" rfl (fun _ => rfl)

/-- C5 counterexample: with a transport in which only the first catalog item
(FR-001) fails — at transport level — and every other request would succeed,
the failure on item 1 prevents all 24 later items of both batches from being
attempted: exactly one request is performed before the run crashes. -/
theorem failure_on_first_item_blocks_later_items :
    (main (some "token123") postDnsOnFirst).requests.length = 1 ∧
    (main (some "token123") postDnsOnFirst).exit =
        .crashed (.requestException "NameResolutionError") ∧
    1 < get_domain_feature_requests.length +
          get_technical_feature_requests.length := by
  exact ⟨rfl, rfl, by decide⟩

/-- C5 as amended: a failed (HTTP error) response on an item never prevents
later items — when every submission receives an HTTP response, every
descriptor of both batches is submitted exactly once, in catalog order,
whatever the statuses were.  (A transport-level failure, by contrast, aborts
the run, as the counterexample shows.) -/
theorem every_item_submitted_exactly_once (token? : Option String)
    (post : Request → HttpResult) (h1 : tokenMissing token? = false)
    (h2 : ResponsesOnly post) :
    (main token? post).requests =
      (get_domain_feature_requests ++ get_technical_feature_requests).map
        (reqOf (token?.getD "")) := by
  rw [main_eq_mainBody token? post h1,
      mainBody_eq_of_responses (token?.getD "") post h2]
  dsimp only
  rw [runItems_eq_of_responses (token?.getD "") post h2 get_domain_feature_requests,
      runItems_eq_of_responses (token?.getD "") post h2 get_technical_feature_requests]
  simp

/-- Witness for the amended C5 at a concrete input: with every submission
rejected by 422 responses, the performed requests are still exactly the whole
catalog, each item once, in order. -/
theorem every_item_submitted_exactly_once_witness :
    (main (some "token123") postAllUnprocessable).requests =
      (get_domain_feature_requests ++ get_technical_feature_requests).map
        (reqOf "token123") :=
  every_item_submitted_exactly_once (some "token123") postAllUnprocessable rfl
    (fun _ => rfl)

/-- Per batch, the items whose responses were not errors and the items whose
responses were errors together count the whole batch. -/
lemma filter_not_failsOn_add_failCount (token : String)
    (post : Request → HttpResult) (l : List FeatureRequest) :
    (l.filter (fun fr => !failsOn post (reqOf token fr))).length +
      failCount post (l.map (reqOf token)) = l.length := by
  induction l with
  | nil => rfl
  | cons fr rest ih =>
    cases hb : failsOn post (reqOf token fr) <;>
      simp [failCount, List.filter, hb] at ih ⊢ <;> omega

/-- C6: with a usable token and every submission answered by a response, the
reported totals are right: 25 items (13 + 12) are attempted, the number of
succeeded submissions is 25 minus the number of error responses, the combined
count is the sum of the two per-batch counts, and the summary line printed
carries exactly those numbers. -/
theorem reported_totals_correct (token? : Option String)
    (post : Request → HttpResult) (h1 : tokenMissing token? = false)
    (h2 : ResponsesOnly post) :
    (main token? post).requests.length =
        get_domain_feature_requests.length +
          get_technical_feature_requests.length ∧
    get_domain_feature_requests.length + get_technical_feature_requests.length
        = 25 ∧
    (runItems (token?.getD "") post get_domain_feature_requests).success +
        (runItems (token?.getD "") post get_technical_feature_requests).success
      = 25 - failCount post
          ((get_domain_feature_requests ++ get_technical_feature_requests).map
            (reqOf (token?.getD ""))) ∧
    ("✅ Successfully created " ++
        toString
          ((runItems (token?.getD "") post get_domain_feature_requests).success +
            (runItems (token?.getD "") post
              get_technical_feature_requests).success) ++
        " out of " ++
        toString (get_domain_feature_requests.length +
          get_technical_feature_requests.length) ++ " issues")
      ∈ (main token? post).output := by
  have hmain := (main_eq_mainBody token? post h1).trans
    (mainBody_eq_of_responses (token?.getD "") post h2)
  refine ⟨?_, by decide, ?_, ?_⟩
  · rw [hmain]
    dsimp only
    rw [runItems_eq_of_responses (token?.getD "") post h2 get_domain_feature_requests,
        runItems_eq_of_responses (token?.getD "") post h2 get_technical_feature_requests]
    simp
  · rw [runItems_eq_of_responses (token?.getD "") post h2 get_domain_feature_requests,
        runItems_eq_of_responses (token?.getD "") post h2 get_technical_feature_requests]
    dsimp only
    have hd := filter_not_failsOn_add_failCount (token?.getD "") post
      get_domain_feature_requests
    have ht := filter_not_failsOn_add_failCount (token?.getD "") post
      get_technical_feature_requests
    have hsplit : failCount post
        ((get_domain_feature_requests ++ get_technical_feature_requests).map
          (reqOf (token?.getD ""))) =
        failCount post (get_domain_feature_requests.map (reqOf (token?.getD ""))) +
          failCount post (get_technical_feature_requests.map (reqOf (token?.getD ""))) := by
      simp [failCount, List.filter_append]
    have hlen : get_domain_feature_requests.length = 13 := by decide
    have hlen2 : get_technical_feature_requests.length = 12 := by decide
    omega
  · rw [hmain]
    simp [List.mem_append]

/-- Witness for C6 at a concrete input: the full catalog of 25 items is
attempted. -/
theorem reported_totals_correct_witness :
    (main (some "token123") postAllOk).requests.length =
      get_domain_feature_requests.length +
        get_technical_feature_requests.length :=
  (reported_totals_correct (some "token123") postAllOk rfl (fun _ => rfl)).1

/-- C7: per batch, with every submission answered by a response: each
processed item adds exactly 1 to the attempted count (the requests performed),
and exactly 1 to the success counter when its response was no error and 0 when
it was; the success counter never exceeds the attempted count; and once the
batch completes, the attempted count equals the batch's item count. -/
theorem batch_counters_invariant (token : String)
    (post : Request → HttpResult) (h : ResponsesOnly post) :
    (∀ (xs : List FeatureRequest) (fr : FeatureRequest),
      (runItems token post (xs ++ [fr])).reqs.length =
          (runItems token post xs).reqs.length + 1 ∧
      (runItems token post (xs ++ [fr])).success =
          (runItems token post xs).success +
            (if failsOn post (reqOf token fr) then 0 else 1)) ∧
    (∀ xs : List FeatureRequest,
      (runItems token post xs).success ≤ (runItems token post xs).reqs.length) ∧
    (∀ xs : List FeatureRequest,
      (runItems token post xs).reqs.length = xs.length) := by
  have master := runItems_eq_of_responses token post h
  refine ⟨?_, ?_, ?_⟩
  · intro xs fr
    rw [master (xs ++ [fr]), master xs]
    dsimp only
    refine ⟨by simp, ?_⟩
    rw [List.filter_append]
    cases hb : failsOn post (reqOf token fr) <;> simp [List.filter, hb]
  · intro xs
    rw [master xs]
    dsimp only
    rw [List.length_map]
    exact List.length_filter_le _ xs
  · intro xs
    rw [master xs]
    simp

/-- Witness for C7 at a concrete input: the completed domain batch attempted
exactly its 13 items. -/
theorem batch_counters_invariant_witness :
    (runItems "token123" postAllOk get_domain_feature_requests).reqs.length =
      get_domain_feature_requests.length :=
  (batch_counters_invariant "token123" postAllOk (fun _ => rfl)).2.2
    get_domain_feature_requests

/-- C9 counterexample: in an all-success run, no per-batch summary line
follows the first batch (position 16 after the 13 domain items is the blank
line and position 17 the second batch's header), and the combined total
(position 32) precedes the two per-batch lines (positions 33 and 34) instead
of following them last — the final line (position 35) is the separator. -/
theorem combined_total_not_last :
    (main (some "token123") postAllOk).output.length = 36 ∧
    (main (some "token123") postAllOk).output[16]? = some "" ∧
    (main (some "token123") postAllOk).output[17]? =
      some "🔧 Creating technical feature requests (TFR-001 to TFR-012)..." ∧
    (main (some "token123") postAllOk).output[32]? =
      some "✅ Successfully created 25 out of 25 issues" ∧
    (main (some "token123") postAllOk).output[33]? =
      some "   - Domain feature requests: 13/13" ∧
    (main (some "token123") postAllOk).output[34]? =
      some "   - Technical feature requests: 12/12" ∧
    (main (some "token123") postAllOk).output[35]? = some sepLine := by
  refine ⟨rfl, rfl, rfl, rfl, rfl, rfl, rfl⟩

/-- C9 as amended: with a usable token and every submission answered by a
response, the report consists of, in order: the run header, the domain batch
header, one per-item marker group per domain descriptor in submission order,
a blank line, the technical batch header, one per-item marker group per
technical descriptor in submission order, and then one summary block after
both batches: a separator, the combined total first, then the domain batch's
succeeded/attempted line, then the technical batch's, then a separator.  Each
item's marker group is one success line, or a failure line plus a response
line. -/
theorem report_structure (token? : Option String)
    (post : Request → HttpResult) (h1 : tokenMissing token? = false)
    (h2 : ResponsesOnly post) :
    ((main token? post).output =
      ["Creating GitHub issues for " ++ REPO_OWNER ++ "/" ++ REPO_NAME ++ "...",
       "",
       "📋 Creating domain feature requests (FR-001 to FR-013)..."] ++
      get_domain_feature_requests.flatMap
        (fun fr => (create_issue fr.title fr.body ["enhancement"]
          (token?.getD "") post).printed) ++
      ["", "🔧 Creating technical feature requests (TFR-001 to TFR-012)..."] ++
      get_technical_feature_requests.flatMap
        (fun fr => (create_issue fr.title fr.body ["enhancement"]
          (token?.getD "") post).printed) ++
      ["", sepLine,
       "✅ Successfully created " ++
         toString ((runItems (token?.getD "") post get_domain_feature_requests).success +
           (runItems (token?.getD "") post get_technical_feature_requests).success) ++
         " out of " ++
         toString (get_domain_feature_requests.length +
           get_technical_feature_requests.length) ++ " issues",
       "   - Domain feature requests: " ++
         toString (runItems (token?.getD "") post get_domain_feature_requests).success ++
         "/" ++ toString get_domain_feature_requests.length,
       "   - Technical feature requests: " ++
         toString (runItems (token?.getD "") post get_technical_feature_requests).success ++
         "/" ++ toString get_technical_feature_requests.length,
       sepLine]) ∧
    (∀ fr : FeatureRequest,
      ((create_issue fr.title fr.body ["enhancement"] (token?.getD "") post).result
          = .ok true ∧
        (create_issue fr.title fr.body ["enhancement"] (token?.getD "") post).printed
          = ["✅ Created: " ++ fr.title]) ∨
      ((create_issue fr.title fr.body ["enhancement"] (token?.getD "") post).result
          = .ok false ∧
        ∃ detail txt,
          (create_issue fr.title fr.body ["enhancement"] (token?.getD "") post).printed
            = ["❌ Failed to create " ++ fr.title ++ ": " ++ detail,
               "   Response: " ++ txt])) := by
  constructor
  · rw [main_eq_mainBody token? post h1,
        mainBody_eq_of_responses (token?.getD "") post h2]
    dsimp only
    rw [runItems_eq_of_responses (token?.getD "") post h2 get_domain_feature_requests,
        runItems_eq_of_responses (token?.getD "") post h2 get_technical_feature_requests]
  · intro fr
    have hr := h2 (issueRequest fr.title fr.body ["enhancement"] (token?.getD ""))
    cases hp : post (issueRequest fr.title fr.body ["enhancement"] (token?.getD "")) with
    | response s rsn txt =>
      rw [create_issue_of_response fr.title fr.body ["enhancement"] (token?.getD "")
            post s rsn txt hp]
      cases hb : raise_for_status_raises s with
      | false => left; simp [hb]
      | true =>
        right
        refine ⟨by simp [hb], http_error_msg s rsn
          (issueRequest fr.title fr.body ["enhancement"] (token?.getD "")).url, txt, ?_⟩
        simp [hb, issueRequest]
    | transportError m =>
      rw [hp] at hr
      simp [HttpResult.isResponse] at hr

/-- Witness for the amended C9 at a concrete input: the all-success report has
exactly 36 lines. -/
theorem report_structure_witness :
    (main (some "token123") postAllOk).output.length = 36 := by
  have h := report_structure (some "token123") postAllOk rfl (fun _ => rfl)
  rw [h.1]
  rfl

end CreateFeatureIssues
